import Mathlib

/-!
# Verification of the Amperfy Bluetooth protocol engine

Shallow embedding of the Swift sources of the Amperfy BLE companion
protocol: the message codec (`BluetoothProtocol.swift`), the pagination
and query dispatcher (`BluetoothCommunicationService.swift`), the
telemetry observer (`BluetoothPlayerObserver.swift`) and the session
manager (`BluetoothManager.swift`).

Modelling conventions:
* JSON documents are modelled by the inductive `Json`; `Data` values
  holding serialized JSON are modelled by the `Json` value they parse to.
* Swift `Double` fields (timestamps, durations) are abstracted to `Int`;
  floating-point formatting is out of scope of these proofs.
* `JSONSerialization.jsonObject` / `.data(withJSONObject:)` without the
  `.fragmentsAllowed` option accept only top-level objects and arrays;
  this is the `Json.isContainer` side condition in the codec.
* The catalog (`LibraryStorage` from AmperfyKit) is an external
  collaborator; its entities are modelled with exactly the fields the
  dispatcher reads.
-/

/-- A JSON value. Numbers are abstracted to `Int` (Swift `Double`). -/
inductive Json where
  | null : Json
  | bool (b : Bool) : Json
  | num (n : Int) : Json
  | str (s : String) : Json
  | arr (items : List Json) : Json
  | obj (fields : List (String × Json)) : Json

/-- First value bound to `key` in an association list of JSON fields. -/
def jsonGet (fields : List (String × Json)) (key : String) : Option Json :=
  match fields with
  | [] => none
  | (k, v) :: rest => if k = key then some v else jsonGet rest key

/-- Dictionary lookup, `dict[key]` on a parsed JSON document; `none` when
the document is not an object (the `as? [String: Any]` cast fails). -/
def Json.lookup (j : Json) (key : String) : Option Json :=
  match j with
  | .obj fields => jsonGet fields key
  | _ => none

/-- Whether `JSONSerialization` accepts the value at top level without
`.fragmentsAllowed`: only objects and arrays qualify. -/
def Json.isContainer : Json → Bool
  | .arr _ => true
  | .obj _ => true
  | _ => false

/-- Swift `enum MessageType: String` of `BluetoothProtocol.swift`. -/
inductive MessageType where
  | songStarted | songStopped | playbackProgress
  | queryPlaylists | queryArtists | queryAlbums | querySongs
  | queryPlaylistSongs | queryArtistSongs | queryAlbumSongs
  | playSong | playPause | nextSong | prevSong
  | playlistsResponse | artistsResponse | albumsResponse | songsResponse
  | error
deriving DecidableEq

/-- The `rawValue` strings of `MessageType`. -/
def MessageType.rawValue : MessageType → String
  | .songStarted => "SONG_STARTED"
  | .songStopped => "SONG_STOPPED"
  | .playbackProgress => "PLAYBACK_PROGRESS"
  | .queryPlaylists => "QUERY_PLAYLISTS"
  | .queryArtists => "QUERY_ARTISTS"
  | .queryAlbums => "QUERY_ALBUMS"
  | .querySongs => "QUERY_SONGS"
  | .queryPlaylistSongs => "QUERY_PLAYLIST_SONGS"
  | .queryArtistSongs => "QUERY_ARTIST_SONGS"
  | .queryAlbumSongs => "QUERY_ALBUM_SONGS"
  | .playSong => "PLAY_SONG"
  | .playPause => "PLAY_PAUSE"
  | .nextSong => "NEXT_SONG"
  | .prevSong => "PREV_SONG"
  | .playlistsResponse => "PLAYLISTS_RESPONSE"
  | .artistsResponse => "ARTISTS_RESPONSE"
  | .albumsResponse => "ALBUMS_RESPONSE"
  | .songsResponse => "SONGS_RESPONSE"
  | .error => "ERROR"

/-- The failable enum initializer `MessageType(rawValue:)`. -/
def MessageType.ofRawValue : String → Option MessageType
  | "SONG_STARTED" => some .songStarted
  | "SONG_STOPPED" => some .songStopped
  | "PLAYBACK_PROGRESS" => some .playbackProgress
  | "QUERY_PLAYLISTS" => some .queryPlaylists
  | "QUERY_ARTISTS" => some .queryArtists
  | "QUERY_ALBUMS" => some .queryAlbums
  | "QUERY_SONGS" => some .querySongs
  | "QUERY_PLAYLIST_SONGS" => some .queryPlaylistSongs
  | "QUERY_ARTIST_SONGS" => some .queryArtistSongs
  | "QUERY_ALBUM_SONGS" => some .queryAlbumSongs
  | "PLAY_SONG" => some .playSong
  | "PLAY_PAUSE" => some .playPause
  | "NEXT_SONG" => some .nextSong
  | "PREV_SONG" => some .prevSong
  | "PLAYLISTS_RESPONSE" => some .playlistsResponse
  | "ARTISTS_RESPONSE" => some .artistsResponse
  | "ALBUMS_RESPONSE" => some .albumsResponse
  | "SONGS_RESPONSE" => some .songsResponse
  | "ERROR" => some .error
  | _ => none

theorem MessageType.ofRawValue_rawValue (t : MessageType) :
    MessageType.ofRawValue t.rawValue = some t := by
  cases t <;> rfl

/-- Swift `struct BluetoothMessage`: the wire envelope. `payloadData : Data?`
is modelled by the JSON value the stored bytes parse to. -/
structure BluetoothMessage where
  type : MessageType
  timestamp : Int
  payloadData : Option Json

/-- Encoder `BluetoothMessage.toData()`: builds the dictionary
`{"type": rawValue, "timestamp": t}` and embeds the payload as a nested
JSON object when `JSONSerialization.jsonObject(with: payloadData)`
succeeds, i.e. when the payload is a container; otherwise the payload
key is silently omitted (`try?`). -/
def BluetoothMessage.toData (m : BluetoothMessage) : Json :=
  .obj ([("type", .str m.type.rawValue), ("timestamp", .num m.timestamp)] ++
    (match m.payloadData with
     | some p => if p.isContainer then [("payload", p)] else []
     | none => []))

/-- Decoder `BluetoothMessage.from(data:)`: requires a JSON object with a string
`type` in the vocabulary and a numeric `timestamp`; the optional payload
is re-serialized with `JSONSerialization.data(withJSONObject:)`, which
fails (`try?` gives `nil`) unless it is a container. -/
def BluetoothMessage.fromData (data : Json) : Option BluetoothMessage :=
  match data.lookup "type", data.lookup "timestamp" with
  | some (.str typeString), some (.num timestamp) =>
    match MessageType.ofRawValue typeString with
    | some type =>
      let payloadData : Option Json :=
        match data.lookup "payload" with
        | some p => if p.isContainer then some p else none
        | none => none
      some ⟨type, timestamp, payloadData⟩
    | none => none
  | _, _ => none

/-- Constant `BluetoothProtocolConstants.maxMessageSize`. -/
def maxMessageSize : Nat := 512

/-- Constant `BluetoothProtocolConstants.progressUpdateInterval`, in milliseconds. -/
def progressUpdateIntervalMs : Nat := 250

/-! ## Payload records (`BluetoothProtocol.swift`) -/

/-- Swift `struct PlaylistInfo`. -/
structure PlaylistInfo where
  id : String
  name : String
  songCount : Nat
deriving DecidableEq

/-- Swift `struct ArtistInfo`. -/
structure ArtistInfo where
  id : String
  name : String
  albumCount : Nat
  songCount : Nat
deriving DecidableEq

/-- Swift `struct AlbumInfo`. -/
structure AlbumInfo where
  id : String
  name : String
  artist : Option String
  songCount : Nat
  year : Option Int
deriving DecidableEq

/-- Swift `struct SongInfo`. -/
structure SongInfo where
  id : String
  title : String
  artist : Option String
  album : Option String
  duration : Int
  trackNumber : Option Int
deriving DecidableEq

/-- Swift `struct PlaylistsResponsePayload`. -/
structure PlaylistsResponsePayload where
  playlists : List PlaylistInfo
  page : Nat
  totalPages : Nat
deriving DecidableEq

/-- Swift `struct ArtistsResponsePayload`. -/
structure ArtistsResponsePayload where
  artists : List ArtistInfo
  page : Nat
  totalPages : Nat
deriving DecidableEq

/-- Swift `struct AlbumsResponsePayload`. -/
structure AlbumsResponsePayload where
  albums : List AlbumInfo
  page : Nat
  totalPages : Nat
deriving DecidableEq

/-- Swift `struct SongsResponsePayload`: carries the scope of the query
(`context`/`contextId`) next to the page of songs. -/
structure SongsResponsePayload where
  songs : List SongInfo
  context : Option String
  contextId : Option String
  page : Nat
  totalPages : Nat
deriving DecidableEq

/-- Swift `struct ErrorPayload`. -/
structure ErrorPayload where
  code : String
  message : String
deriving DecidableEq

/-- Swift `struct PlaySongPayload`. -/
structure PlaySongPayload where
  songId : String
  context : Option String
  contextId : Option String
  songIndex : Option Int
deriving DecidableEq

/-- Swift `struct QueryPlaylistSongsPayload`. -/
structure QueryPlaylistSongsPayload where
  playlistId : String
deriving DecidableEq

/-- Swift `struct QueryArtistSongsPayload`. -/
structure QueryArtistSongsPayload where
  artistId : String
deriving DecidableEq

/-- Swift `struct QueryAlbumSongsPayload`. -/
structure QueryAlbumSongsPayload where
  albumId : String
deriving DecidableEq

/-! ## The catalog collaborator (AmperfyKit `LibraryStorage`)

The store is external to the protocol engine; entities carry exactly the
fields the dispatcher reads. `playables` of a playlist are modelled as
songs directly (the dispatcher's `compactMap { $0 as? Song }` is the
identity on this model). -/

/-- A catalog song, with the fields read by `createSongInfo`. -/
structure Song where
  id : String
  title : String
  artist : Option String
  album : Option String
  duration : Int
  track : Option Int
deriving DecidableEq

/-- A catalog playlist. `isSystem` marks system playlists, which
`getAllPlaylists(areSystemPlaylistsIncluded: false)` filters out. -/
structure Playlist where
  id : String
  name : String
  isSystem : Bool
  playables : List Song
deriving DecidableEq

/-- A catalog artist; `albums` holds the ids of the artist's albums (the
dispatcher reads only their count). -/
structure Artist where
  id : String
  name : String
  albums : List String
  songs : List Song
deriving DecidableEq

/-- A catalog album. -/
structure Album where
  id : String
  name : String
  artist : Option String
  year : Option Int
  songs : List Song
deriving DecidableEq

/-- The queryable catalog collaborator. -/
structure LibraryStorage where
  playlists : List Playlist
  artists : List Artist
  albums : List Album
  songs : List Song
deriving DecidableEq

/-- Modelled from the spec: AmperfyKit's
`getAllPlaylists(areSystemPlaylistsIncluded:)` is outside this
repository; per the flag's name, passing `false` excludes system
playlists and passing `true` returns all playlists. -/
def LibraryStorage.getAllPlaylists (st : LibraryStorage)
    (areSystemPlaylistsIncluded : Bool) : List Playlist :=
  if areSystemPlaylistsIncluded then st.playlists
  else st.playlists.filter (fun p => !p.isSystem)

/-- Accessor `storage.getAllArtists()`. -/
def LibraryStorage.getAllArtists (st : LibraryStorage) : List Artist := st.artists

/-- Accessor `storage.getAllAlbums()`. -/
def LibraryStorage.getAllAlbums (st : LibraryStorage) : List Album := st.albums

/-- Accessor `storage.getAllSongs()`. -/
def LibraryStorage.getAllSongs (st : LibraryStorage) : List Song := st.songs

/-! ## Pagination (`BluetoothCommunicationService.swift`) -/

/-- Items per page, tuned to the 512-byte BLE message cap. -/
def playlistsPerPage : Nat := 4

/-- Items per page for artists. -/
def artistsPerPage : Nat := 4

/-- Items per page for albums. -/
def albumsPerPage : Nat := 3

/-- Items per page for songs (songs have the most data per item). -/
def songsPerPage : Nat := 2

/-- Constant `delayBetweenPages`: 50ms in nanoseconds, the inter-page delay. -/
def delayBetweenPagesNs : Nat := 50000000

/-- Page count `totalPages = max(1, (items.count + perPage - 1) / perPage)`: the page
count shared by the four `sendPaginated…` loops. -/
def numPages (perPage count : Nat) : Nat :=
  max 1 ((count + perPage - 1) / perPage)

/-- The common shape of the `for page in 0..<totalPages` loops: for each
page index the slice `items[start ..< min(start+perPage, count)]`
(rendered as `drop`/`take`), the 1-based page number, and `totalPages`. -/
def pageSlices (perPage : Nat) (items : List α) : List (List α × Nat × Nat) :=
  (List.range (numPages perPage items.length)).map fun page =>
    ((items.drop (page * perPage)).take perPage, page + 1, numPages perPage items.length)

/-- Loop `sendPaginatedPlaylists`: the sequence of page payloads sent. -/
def sendPaginatedPlaylists (items : List PlaylistInfo) : List PlaylistsResponsePayload :=
  (pageSlices playlistsPerPage items).map fun s => ⟨s.1, s.2.1, s.2.2⟩

/-- Loop `sendPaginatedArtists`: the sequence of page payloads sent. -/
def sendPaginatedArtists (items : List ArtistInfo) : List ArtistsResponsePayload :=
  (pageSlices artistsPerPage items).map fun s => ⟨s.1, s.2.1, s.2.2⟩

/-- Loop `sendPaginatedAlbums`: the sequence of page payloads sent. -/
def sendPaginatedAlbums (items : List AlbumInfo) : List AlbumsResponsePayload :=
  (pageSlices albumsPerPage items).map fun s => ⟨s.1, s.2.1, s.2.2⟩

/-- Loop `sendPaginatedSongs`: the sequence of page payloads sent; note that
`context`/`contextId` are written into the payload of every page of the
loop. -/
def sendPaginatedSongs (items : List SongInfo) (context contextId : Option String) :
    List SongsResponsePayload :=
  (pageSlices songsPerPage items).map fun s => ⟨s.1, context, contextId, s.2.1, s.2.2⟩

/-! ## Query dispatcher (`BluetoothCommunicationService.swift`) -/

/-- One outbound envelope handed to `sendMessage`, tagged by its
`MessageType` and carrying its payload. -/
inductive Outbound where
  | errorMsg (code message : String)
  | playlistsPage (payload : PlaylistsResponsePayload)
  | artistsPage (payload : ArtistsResponsePayload)
  | albumsPage (payload : AlbumsResponsePayload)
  | songsPage (payload : SongsResponsePayload)
deriving DecidableEq

/-- Helper `createSongInfo(from:)`: maps a catalog song to its wire record,
truncating the title to 30 and artist/album names to 20 characters. -/
def createSongInfo (song : Song) : SongInfo :=
  ⟨song.id, song.title.take 30, song.artist.map (·.take 20),
    song.album.map (·.take 20), song.duration, song.track⟩

/-- Handler `handleQueryPlaylists`: lists non-system playlists (names truncated
to 30 characters) and paginates them. -/
def handleQueryPlaylists (storage : LibraryStorage) : List Outbound :=
  let playlistInfos := (storage.getAllPlaylists false).map fun playlist =>
    PlaylistInfo.mk playlist.id (playlist.name.take 30) playlist.playables.length
  (sendPaginatedPlaylists playlistInfos).map .playlistsPage

/-- Handler `handleQueryArtists`. -/
def handleQueryArtists (storage : LibraryStorage) : List Outbound :=
  let artistInfos := storage.getAllArtists.map fun artist =>
    ArtistInfo.mk artist.id (artist.name.take 30) artist.albums.length artist.songs.length
  (sendPaginatedArtists artistInfos).map .artistsPage

/-- Handler `handleQueryAlbums`. -/
def handleQueryAlbums (storage : LibraryStorage) : List Outbound :=
  let albumInfos := storage.getAllAlbums.map fun album =>
    AlbumInfo.mk album.id (album.name.take 25) (album.artist.map (·.take 20))
      album.songs.length album.year
  (sendPaginatedAlbums albumInfos).map .albumsPage

/-- Handler `handleQuerySongs`: the full catalog, no scope. -/
def handleQuerySongs (storage : LibraryStorage) : List Outbound :=
  let songInfos := storage.getAllSongs.map createSongInfo
  (sendPaginatedSongs songInfos none none).map .songsPage

/-- Handler `handleQueryPlaylistSongs`: resolves the playlist id against all
playlists (system playlists included); unknown ids produce a single
`PLAYLIST_NOT_FOUND` error envelope and no pages. -/
def handleQueryPlaylistSongs (storage : LibraryStorage) (playlistId : String) :
    List Outbound :=
  match (storage.getAllPlaylists true).find? (fun p => p.id == playlistId) with
  | none =>
    [.errorMsg "PLAYLIST_NOT_FOUND" ("Playlist with ID " ++ playlistId ++ " not found")]
  | some playlist =>
    let songInfos := playlist.playables.map createSongInfo
    (sendPaginatedSongs songInfos (some "playlist") (some playlistId)).map .songsPage

/-- Handler `handleQueryArtistSongs`. -/
def handleQueryArtistSongs (storage : LibraryStorage) (artistId : String) :
    List Outbound :=
  match storage.getAllArtists.find? (fun a => a.id == artistId) with
  | none =>
    [.errorMsg "ARTIST_NOT_FOUND" ("Artist with ID " ++ artistId ++ " not found")]
  | some artist =>
    let songInfos := artist.songs.map createSongInfo
    (sendPaginatedSongs songInfos (some "artist") (some artistId)).map .songsPage

/-- Handler `handleQueryAlbumSongs`. -/
def handleQueryAlbumSongs (storage : LibraryStorage) (albumId : String) :
    List Outbound :=
  match storage.getAllAlbums.find? (fun a => a.id == albumId) with
  | none =>
    [.errorMsg "ALBUM_NOT_FOUND" ("Album with ID " ++ albumId ++ " not found")]
  | some album =>
    let songInfos := album.songs.map createSongInfo
    (sendPaginatedSongs songInfos (some "album") (some albumId)).map .songsPage

/-! ## Playback command handling (`handlePlaySong`) -/

/-- Result of `handlePlaySong`: either an error envelope is sent and no
playback action taken, or `player.play(context:)` is invoked with the
given context name, start index and queue. -/
inductive PlayResult where
  | errorResult (code message : String)
  | play (contextName : String) (startIndex : Int) (playables : List Song)
deriving DecidableEq

/-- The first phase of `handlePlaySong` ("Build the queue based on
context"): the `(playables, contextName)` pair produced by the `switch`
over the optional scope. Every miss — no scope, missing scope id,
unknown scope kind, or an unresolved scope id — leaves the pair at its
initial `([], "")`. -/
def playSongScopedQueue (storage : LibraryStorage)
    (payload : PlaySongPayload) : List Song × String :=
  match payload.context, payload.contextId with
  | some context, some contextId =>
    if context = "playlist" then
      match (storage.getAllPlaylists true).find? (fun p => p.id == contextId) with
      | some playlist => (playlist.playables, playlist.name)
      | none => ([], "")
    else if context = "album" then
      match storage.getAllAlbums.find? (fun a => a.id == contextId) with
      | some album => (album.songs, album.name)
      | none => ([], "")
    else if context = "artist" then
      match storage.getAllArtists.find? (fun a => a.id == contextId) with
      | some artist => (artist.songs, artist.name)
      | none => ([], "")
    else ([], "")
  | _, _ => ([], "")

/-- Handler `handlePlaySong`: guards on the player binding, builds the queue from
the optional scope, falls back to the singleton catalog song found by id,
errors with `SONG_NOT_FOUND` on an empty queue, and otherwise locates the
start index by id with the caller-supplied index (capped at `count - 1`)
as fallback. -/
def handlePlaySong (hasPlayer : Bool) (storage : LibraryStorage)
    (payload : PlaySongPayload) : PlayResult :=
  if !hasPlayer then .errorResult "NO_PLAYER" "Player not available"
  else
    -- Build the queue based on context
    let scopedQueue : List Song × String := playSongScopedQueue storage payload
    -- If no context or context not found, try to find the song directly
    let resolved : List Song × String :=
      if scopedQueue.1.isEmpty then
        match storage.getAllSongs.find? (fun s => s.id == payload.songId) with
        | some song => ([song], song.title)
        | none => ([], "")
      else scopedQueue
    if resolved.1.isEmpty then .errorResult "SONG_NOT_FOUND" "Could not find song or context"
    else
      -- Find the index of the selected song by ID, else the provided index
      let startIndex : Int :=
        match resolved.1.findIdx? (fun s => s.id == payload.songId) with
        | some index => (index : Int)
        | none =>
          match payload.songIndex with
          | some songIndex => min songIndex ((resolved.1.length : Int) - 1)
          | none => 0
      .play resolved.2 startIndex resolved.1

/-! ## Nested payload decoding (`message.decode(as:)`) -/

/-- An optional `String` field under `JSONDecoder` semantics: absent or
`null` decodes to `nil`, a string decodes to itself, any other value
fails the whole payload. -/
def optStringField (j : Json) (key : String) : Option (Option String) :=
  match j.lookup key with
  | none => some none
  | some .null => some none
  | some (.str s) => some (some s)
  | some _ => none

/-- An optional `Int` field under `JSONDecoder` semantics. -/
def optIntField (j : Json) (key : String) : Option (Option Int) :=
  match j.lookup key with
  | none => some none
  | some .null => some none
  | some (.num n) => some (some n)
  | some _ => none

/-- Decoder `message.decode(as: QueryPlaylistSongsPayload.self)`. -/
def decodeQueryPlaylistSongsPayload (payloadData : Option Json) :
    Option QueryPlaylistSongsPayload :=
  match payloadData with
  | none => none
  | some j =>
    match j.lookup "playlistId" with
    | some (.str s) => some ⟨s⟩
    | _ => none

/-- Decoder `message.decode(as: QueryArtistSongsPayload.self)`. -/
def decodeQueryArtistSongsPayload (payloadData : Option Json) :
    Option QueryArtistSongsPayload :=
  match payloadData with
  | none => none
  | some j =>
    match j.lookup "artistId" with
    | some (.str s) => some ⟨s⟩
    | _ => none

/-- Decoder `message.decode(as: QueryAlbumSongsPayload.self)`. -/
def decodeQueryAlbumSongsPayload (payloadData : Option Json) :
    Option QueryAlbumSongsPayload :=
  match payloadData with
  | none => none
  | some j =>
    match j.lookup "albumId" with
    | some (.str s) => some ⟨s⟩
    | _ => none

/-- Decoder `message.decode(as: PlaySongPayload.self)`. -/
def decodePlaySongPayload (payloadData : Option Json) : Option PlaySongPayload :=
  match payloadData with
  | none => none
  | some j =>
    match j.lookup "songId", optStringField j "context",
        optStringField j "contextId", optIntField j "songIndex" with
    | some (.str songId), some context, some contextId, some songIndex =>
      some ⟨songId, context, contextId, songIndex⟩
    | _, _, _, _ => none

/-! ## Dispatch (`handleQuery` / `handleReceivedData`) -/

/-- Handler `handleQuery`: guards on the storage binding (`NO_STORAGE`), then
switches on the decoded message type. Recognized-but-malformed payloads
are silently ignored; recognized types outside the query/command set hit
the logged `default:` branch and produce nothing. The envelopes emitted
by a `playSong` command are the error cases of `handlePlaySong`; a
successful resolution calls the player and emits no envelope. -/
def handleQuery (storage : Option LibraryStorage) (hasPlayer : Bool)
    (message : BluetoothMessage) : List Outbound :=
  match storage with
  | none => [.errorMsg "NO_STORAGE" "Library storage not available"]
  | some st =>
    match message.type with
    | .queryPlaylists => handleQueryPlaylists st
    | .queryArtists => handleQueryArtists st
    | .queryAlbums => handleQueryAlbums st
    | .querySongs => handleQuerySongs st
    | .queryPlaylistSongs =>
      match decodeQueryPlaylistSongsPayload message.payloadData with
      | some payload => handleQueryPlaylistSongs st payload.playlistId
      | none => []
    | .queryArtistSongs =>
      match decodeQueryArtistSongsPayload message.payloadData with
      | some payload => handleQueryArtistSongs st payload.artistId
      | none => []
    | .queryAlbumSongs =>
      match decodeQueryAlbumSongsPayload message.payloadData with
      | some payload => handleQueryAlbumSongs st payload.albumId
      | none => []
    | .playSong =>
      match decodePlaySongPayload message.payloadData with
      | some payload =>
        match handlePlaySong hasPlayer st payload with
        | .errorResult code msg => [.errorMsg code msg]
        | .play _ _ _ => []
      | none => []
    | .playPause => []
    | .nextSong => []
    | .prevSong => []
    | _ => []

/-- Handler `handleReceivedData`: decodes the inbound frame; a frame that
`BluetoothMessage.from(data:)` rejects is answered with a single
`INVALID_MESSAGE` error envelope, otherwise the message is dispatched. -/
def handleReceivedData (storage : Option LibraryStorage) (hasPlayer : Bool)
    (data : Json) : List Outbound :=
  match BluetoothMessage.fromData data with
  | none => [.errorMsg "INVALID_MESSAGE" "Could not decode message"]
  | some message => handleQuery storage hasPlayer message

/-! ## Outbound transmission (`sendMessage` / `sendError`) -/

/-- A write handed to `peripheral.writeValue` — the full serialized frame
(identified by its byte count), or the serialized `MESSAGE_TOO_LARGE`
error envelope produced by `sendError`. -/
inductive TxWrite where
  | frame (size : Nat)
  | errorFrame (code : String) (size : Nat)
deriving DecidableEq

/-- Guard `sendMessage`: drops the send when the characteristic is unbound or
serialization failed; when the serialized frame exceeds
`maxMessageSize` it is not written and `sendError("MESSAGE_TOO_LARGE")`
runs instead (whose own envelope passes through the same guard);
otherwise the frame is written whole. `dataSize` is
`message.toData()?.count`; `errorEnvelopeSize` is the byte count of the
serialized `MESSAGE_TOO_LARGE` error envelope. -/
def sendMessageWrites (hasTxCharacteristic : Bool) (dataSize : Option Nat)
    (errorEnvelopeSize : Nat) : List TxWrite :=
  match hasTxCharacteristic, dataSize with
  | true, some n =>
    if n > maxMessageSize then
      if errorEnvelopeSize > maxMessageSize then []
      else [.errorFrame "MESSAGE_TOO_LARGE" errorEnvelopeSize]
    else [.frame n]
  | _, _ => []

/-! ## Telemetry observer (`BluetoothPlayerObserver.swift`) -/

/-- The observer's only history: `lastPlayingState` and `lastSongId`. -/
structure ObserverState where
  lastPlayingState : Bool
  lastSongId : Option String
deriving DecidableEq

/-- One polled snapshot of the player collaborator. -/
structure PlayerSnapshot where
  isPlaying : Bool
  currentlyPlaying : Option Song
  contextName : String
deriving DecidableEq

/-- A transition-driven telemetry frame handed to the communication
service (`sendSongStarted` / `sendSongStopped`). -/
inductive TelemetryEvent where
  | songStarted (songId : String)
  | songStopped (songId : String)
deriving DecidableEq

/-- Poll step `checkPlayerState`: detects song changes (stop the previous song,
start the new one when playing) and play/pause flips on the same song,
and updates the remembered state. -/
def checkPlayerState (st : ObserverState) (player : PlayerSnapshot) :
    ObserverState × List TelemetryEvent :=
  let currentSongId := player.currentlyPlaying.map (·.id)
  if currentSongId ≠ st.lastSongId then
    -- Song changed
    let stops :=
      match st.lastSongId with
      | some lastId => [TelemetryEvent.songStopped lastId]
      | none => []
    let starts :=
      match player.currentlyPlaying with
      | some song => if player.isPlaying then [TelemetryEvent.songStarted song.id] else []
      | none => []
    (⟨player.isPlaying, currentSongId⟩, stops ++ starts)
  else if player.isPlaying ≠ st.lastPlayingState then
    -- Play/pause change on the same song
    let events :=
      match player.currentlyPlaying with
      | some song =>
        if player.isPlaying then [TelemetryEvent.songStarted song.id]
        else [TelemetryEvent.songStopped song.id]
      | none => []
    (⟨player.isPlaying, st.lastSongId⟩, events)
  else (st, [])

/-- Folds `checkPlayerState` over a sequence of polled snapshots,
concatenating the emitted telemetry frames in order. -/
def runObserver (st : ObserverState) : List PlayerSnapshot → ObserverState × List TelemetryEvent
  | [] => (st, [])
  | player :: rest =>
    let (st', events) := checkPlayerState st player
    let (st'', events') := runObserver st' rest
    (st'', events ++ events')

/-- The progress-timer state after a sequence of telemetry frames:
`sendSongStarted` calls `startProgressTimer()` and `sendSongStopped`
calls `stopProgressTimer()`; `playbackProgress` frames are emitted only
while this timer runs. -/
def progressTimerAfter (running : Bool) : List TelemetryEvent → Bool
  | [] => running
  | .songStarted _ :: rest => progressTimerAfter true rest
  | .songStopped _ :: rest => progressTimerAfter false rest

/-! ## Session manager (`BluetoothManager.swift`) -/

/-- The manager's persisted and in-memory session state: the saved
last-connected peer (`UserDefaults`), the `autoReconnect` flag, the
currently connected device and the list of discovered device ids. -/
structure ManagerState where
  persistedId : Option String
  persistedName : Option String
  autoReconnect : Bool
  connected : Option String
  discovered : List String
deriving DecidableEq

/-- Delegate events driving the manager. `didDisconnect` carries whether
a transport error was present and whether the central is powered on when
the 2-second backoff task fires. -/
inductive BtEvent where
  | didConnect (id deviceName : String)
  | userDisconnect
  | didDisconnect (id : String) (hadError : Bool) (poweredOnAtRetry : Bool)
deriving DecidableEq

/-- Calls the manager makes into the transport. -/
inductive BtAction where
  | cancelConnection (id : String)
  | reconnect (delaySeconds : Nat) (id : String)
deriving DecidableEq

/-- One manager transition.
* `didConnect` (for a discovered device): records the connection and
  persists `{id, name, autoReconnect := true}` (`saveConnectedDevice`).
* `userDisconnect` (`disconnect()`): with a connected device, clears the
  persisted session and sets `autoReconnect := false`
  (`clearConnectedDevice`), then cancels the connection.
* `didDisconnect` (for a discovered device): clears `connectedDevice`;
  when a transport error was present and the persisted `autoReconnect`
  flag holds, schedules a single reconnection to that peripheral after a
  2-second backoff, executed only if the central is powered on. -/
def managerStep (st : ManagerState) : BtEvent → ManagerState × List BtAction
  | .didConnect id deviceName =>
    if st.discovered.contains id then
      ({ st with
          connected := some id
          persistedId := some id
          persistedName := some deviceName
          autoReconnect := true }, [])
    else (st, [])
  | .userDisconnect =>
    match st.connected with
    | none => (st, [])
    | some id =>
      ({ st with
          persistedId := none
          persistedName := none
          autoReconnect := false }, [.cancelConnection id])
  | .didDisconnect id hadError poweredOnAtRetry =>
    if st.discovered.contains id then
      let st' := { st with connected := if st.connected = some id then none else st.connected }
      if hadError && st.autoReconnect then
        (st', if poweredOnAtRetry then [.reconnect 2 id] else [])
      else (st', [])
    else (st, [])

/-! ## Pagination lemmas -/

theorem numPages_zero (p : Nat) : numPages p 0 = 1 := by
  have h : (0 + p - 1) / p = 0 := by
    rcases Nat.eq_zero_or_pos p with hp | hp
    · simp [hp]
    · exact Nat.div_eq_of_lt (by omega)
  unfold numPages
  rw [h]
  simp

theorem numPages_of_le (p n : Nat) (hp : 0 < p) (hn : 0 < n) (h : n ≤ p) :
    numPages p n = 1 := by
  have h1 : 1 ≤ (n + p - 1) / p := (Nat.one_le_div_iff hp).2 (by omega)
  have h2 : (n + p - 1) / p < 2 := Nat.div_lt_of_lt_mul (by omega)
  unfold numPages
  omega

theorem numPages_of_gt (p n : Nat) (hp : 0 < p) (h : p < n) :
    numPages p n = numPages p (n - p) + 1 := by
  have e1 : n + p - 1 = (n - 1) + p := by omega
  have e2 : n - p + p - 1 = n - 1 := by omega
  have h3 : 1 ≤ (n - 1) / p := (Nat.one_le_div_iff hp).2 (by omega)
  unfold numPages
  rw [e1, e2, Nat.add_div_right _ hp]
  omega

/-- The chunks of a long list: the first `perPage` items, then the chunks
of the rest. -/
theorem pageSlices_chunks_cons (p : Nat) (hp : 0 < p) (items : List α)
    (h : p < items.length) :
    (pageSlices p items).map (fun s => s.1) =
      items.take p :: (pageSlices p (items.drop p)).map (fun s => s.1) := by
  have hlen : (items.drop p).length = items.length - p := by simp
  unfold pageSlices
  rw [hlen, numPages_of_gt p items.length hp h, List.range_succ_eq_map]
  simp only [List.map_cons, List.map_map, Nat.zero_mul, List.drop_zero]
  refine congrArg₂ _ rfl ?_
  apply List.map_congr_left
  intro page _
  simp only [Function.comp]
  rw [Nat.succ_mul, Nat.add_comm (page * p) p, ← List.drop_drop]

/-- Concatenating the page slices in emission order reconstructs the
original item sequence. -/
theorem pageSlices_flatten (p : Nat) (hp : 0 < p) (items : List α) :
    ((pageSlices p items).map (fun s => s.1)).flatten = items := by
  suffices h : ∀ (fuel : Nat) (l : List α), l.length ≤ fuel →
      ((pageSlices p l).map (fun s => s.1)).flatten = l from
    h items.length items (Nat.le_refl _)
  intro fuel
  induction fuel with
  | zero =>
    intro l hl
    have : l = [] := List.length_eq_zero.1 (Nat.le_zero.1 hl)
    subst this
    simp [pageSlices, numPages_zero]
  | succ fuel ih =>
    intro l hl
    by_cases hle : l.length ≤ p
    · rcases Nat.eq_zero_or_pos l.length with h0 | h0
      · have : l = [] := List.length_eq_zero.1 h0
        subst this
        simp [pageSlices, numPages_zero]
      · have h1 : numPages p l.length = 1 := numPages_of_le p l.length hp h0 hle
        have h2 : pageSlices p l = [(l.take p, 1, 1)] := by
          unfold pageSlices
          rw [h1, show List.range 1 = [0] from rfl]
          simp
        rw [h2]
        simp [List.take_of_length_le hle]
    · push_neg at hle
      rw [pageSlices_chunks_cons p hp l hle, List.flatten_cons,
        ih (l.drop p) (by simp; omega), List.take_append_drop]

theorem pageSlices_length (p : Nat) (items : List α) :
    (pageSlices p items).length = numPages p items.length := by
  simp [pageSlices]

theorem pageSlices_totalPages (p : Nat) (items : List α) :
    ∀ s ∈ pageSlices p items, s.2.2 = numPages p items.length := by
  intro s hs
  simp only [pageSlices, List.mem_map, List.mem_range] at hs
  obtain ⟨page, _, rfl⟩ := hs
  rfl

theorem pageSlices_pages (p : Nat) (items : List α) :
    (pageSlices p items).map (fun s => s.2.1) =
      (List.range (numPages p items.length)).map (· + 1) := by
  simp [pageSlices]

theorem pageSlices_nil (p : Nat) : pageSlices p ([] : List α) = [([], 1, 1)] := by
  simp [pageSlices, numPages_zero, List.range_succ]

theorem numPages_eq_ceilDiv (p n : Nat) (hp : 0 < p) (hn : 0 < n) :
    numPages p n = n ⌈/⌉ p := by
  have h1 : 1 ≤ (n + p - 1) / p := (Nat.one_le_div_iff hp).2 (by omega)
  rw [Nat.ceilDiv_eq_add_pred_div]
  unfold numPages
  omega

theorem sendPaginatedPlaylists_length (items : List PlaylistInfo) :
    (sendPaginatedPlaylists items).length = numPages playlistsPerPage items.length := by
  simp [sendPaginatedPlaylists, pageSlices]

theorem sendPaginatedSongs_length (items : List SongInfo) (ctx cid : Option String) :
    (sendPaginatedSongs items ctx cid).length = numPages songsPerPage items.length := by
  simp [sendPaginatedSongs, pageSlices]

/-- C1: for every item sequence, the paginated response sequence produced
for a library query (playlists and scoped/unscoped songs) has exactly
`⌈N / perPage⌉` pages when `N > 0` and exactly one page with an empty
item list when `N = 0`; every page carries the same `totalPages` value,
equal to the number of pages; the pages are emitted with ascending
1-based page numbers; and concatenating the pages' item lists in
emission order yields the original sequence exactly. -/
theorem c1_paginate (ps : List PlaylistInfo) (ss : List SongInfo)
    (ctx cid : Option String) :
    ((ps ≠ [] → (sendPaginatedPlaylists ps).length = ps.length ⌈/⌉ playlistsPerPage)
      ∧ sendPaginatedPlaylists [] = [⟨[], 1, 1⟩]
      ∧ (∀ pg ∈ sendPaginatedPlaylists ps,
          pg.totalPages = (sendPaginatedPlaylists ps).length)
      ∧ ((sendPaginatedPlaylists ps).map PlaylistsResponsePayload.playlists).flatten = ps
      ∧ (sendPaginatedPlaylists ps).map PlaylistsResponsePayload.page
          = (List.range (sendPaginatedPlaylists ps).length).map (· + 1))
    ∧ ((ss ≠ [] → (sendPaginatedSongs ss ctx cid).length = ss.length ⌈/⌉ songsPerPage)
      ∧ sendPaginatedSongs [] ctx cid = [⟨[], ctx, cid, 1, 1⟩]
      ∧ (∀ pg ∈ sendPaginatedSongs ss ctx cid,
          pg.totalPages = (sendPaginatedSongs ss ctx cid).length)
      ∧ ((sendPaginatedSongs ss ctx cid).map SongsResponsePayload.songs).flatten = ss
      ∧ (sendPaginatedSongs ss ctx cid).map SongsResponsePayload.page
          = (List.range (sendPaginatedSongs ss ctx cid).length).map (· + 1)) := by
  refine ⟨⟨?_, ?_, ?_, ?_, ?_⟩, ?_, ?_, ?_, ?_, ?_⟩
  · intro h
    rw [sendPaginatedPlaylists_length,
      numPages_eq_ceilDiv _ _ (by decide) (List.length_pos.2 h)]
  · simp [sendPaginatedPlaylists, pageSlices_nil]
  · intro pg hpg
    rw [sendPaginatedPlaylists_length]
    simp only [sendPaginatedPlaylists, List.mem_map] at hpg
    obtain ⟨s, hs, rfl⟩ := hpg
    exact pageSlices_totalPages _ _ s hs
  · have h : (sendPaginatedPlaylists ps).map PlaylistsResponsePayload.playlists
        = (pageSlices playlistsPerPage ps).map (fun s => s.1) := by
      simp [sendPaginatedPlaylists, List.map_map]
    rw [h, pageSlices_flatten _ (by decide)]
  · rw [sendPaginatedPlaylists_length]
    have h : (sendPaginatedPlaylists ps).map PlaylistsResponsePayload.page
        = (pageSlices playlistsPerPage ps).map (fun s => s.2.1) := by
      simp [sendPaginatedPlaylists, List.map_map]
    rw [h, pageSlices_pages]
  · intro h
    rw [sendPaginatedSongs_length,
      numPages_eq_ceilDiv _ _ (by decide) (List.length_pos.2 h)]
  · simp [sendPaginatedSongs, pageSlices_nil]
  · intro pg hpg
    rw [sendPaginatedSongs_length]
    simp only [sendPaginatedSongs, List.mem_map] at hpg
    obtain ⟨s, hs, rfl⟩ := hpg
    exact pageSlices_totalPages _ _ s hs
  · have h : (sendPaginatedSongs ss ctx cid).map SongsResponsePayload.songs
        = (pageSlices songsPerPage ss).map (fun s => s.1) := by
      simp [sendPaginatedSongs, List.map_map]
    rw [h, pageSlices_flatten _ (by decide)]
  · rw [sendPaginatedSongs_length]
    have h : (sendPaginatedSongs ss ctx cid).map SongsResponsePayload.page
        = (pageSlices songsPerPage ss).map (fun s => s.2.1) := by
      simp [sendPaginatedSongs, List.map_map]
    rw [h, pageSlices_pages]

/-- Five playlist records, exercising a 2-page playlists response. -/
def c1PlaylistsW : List PlaylistInfo :=
  [⟨"p1", "P1", 1⟩, ⟨"p2", "P2", 2⟩, ⟨"p3", "P3", 3⟩, ⟨"p4", "P4", 4⟩, ⟨"p5", "P5", 5⟩]

/-- Five song records, exercising a 3-page songs response. -/
def c1SongsW : List SongInfo :=
  [⟨"s1", "T1", none, none, 1, none⟩, ⟨"s2", "T2", none, none, 2, none⟩,
   ⟨"s3", "T3", none, none, 3, none⟩, ⟨"s4", "T4", none, none, 4, none⟩,
   ⟨"s5", "T5", none, none, 5, none⟩]

/-- Witness for `c1_paginate` at concrete inputs: 5 playlists paginate to
`⌈5/4⌉ = 2` pages, 5 songs to `⌈5/2⌉ = 3` pages, the first playlists
page carries `totalPages = 2`, and flattening the song pages restores
the 5 songs. -/
theorem c1_paginate_witness :
    (sendPaginatedPlaylists c1PlaylistsW).length = 2
    ∧ (sendPaginatedSongs c1SongsW none none).length = 3
    ∧ (PlaylistsResponsePayload.mk (c1PlaylistsW.take 4) 1 2).totalPages
        = (sendPaginatedPlaylists c1PlaylistsW).length
    ∧ ((sendPaginatedSongs c1SongsW none none).map SongsResponsePayload.songs).flatten
        = c1SongsW := by
  have h := c1_paginate c1PlaylistsW c1SongsW none none
  refine ⟨?_, ?_, ?_, h.2.2.2.2.1⟩
  · rw [h.1.1 (by decide)]
    decide
  · rw [h.2.1 (by decide)]
    decide
  · exact h.1.2.2.1 ⟨c1PlaylistsW.take 4, 1, 2⟩ (by decide)

/-! ## Codec round-trip -/

/-- C4 (counterexample): the claimed round-trip fails for an envelope
whose payload bytes hold a JSON fragment (here the bare string `"x"`):
`toData` silently drops the payload because
`JSONSerialization.jsonObject` rejects non-container top-level values,
so decoding the encoded envelope loses the payload. -/
theorem c4_roundtrip_counterexample :
    BluetoothMessage.fromData
        (BluetoothMessage.toData ⟨.songStarted, 0, some (.str "x")⟩)
      = some ⟨.songStarted, 0, none⟩
    ∧ BluetoothMessage.fromData
        (BluetoothMessage.toData ⟨.songStarted, 0, some (.str "x")⟩)
      ≠ some ⟨.songStarted, 0, some (.str "x")⟩ := by
  constructor
  · rfl
  · intro hEq
    rw [show BluetoothMessage.fromData
        (BluetoothMessage.toData ⟨.songStarted, 0, some (.str "x")⟩)
      = some ⟨.songStarted, 0, none⟩ from rfl] at hEq
    simp at hEq

/-- C4 (amended): for every envelope whose payload is absent or is a
JSON container (an object or array — as every payload struct of the
protocol encodes to), decoding the encoded envelope restores the
envelope exactly: same type, same timestamp, same payload. -/
theorem c4_roundtrip_amended (m : BluetoothMessage)
    (h : ∀ p, m.payloadData = some p → p.isContainer = true) :
    BluetoothMessage.fromData m.toData = some m := by
  obtain ⟨ty, ts, payload⟩ := m
  cases payload with
  | none =>
    simp [BluetoothMessage.toData, BluetoothMessage.fromData, Json.lookup,
      jsonGet, MessageType.ofRawValue_rawValue]
  | some p =>
    have hc : p.isContainer = true := h p rfl
    simp [BluetoothMessage.toData, BluetoothMessage.fromData, Json.lookup,
      jsonGet, hc, MessageType.ofRawValue_rawValue]

/-- Witness for `c4_roundtrip_amended`: a concrete `playbackProgress`
envelope with an object payload round-trips. -/
theorem c4_roundtrip_witness :
    BluetoothMessage.fromData
        (BluetoothMessage.toData
          ⟨.playbackProgress, 42, some (.obj [("songId", .str "s1")])⟩)
      = some ⟨.playbackProgress, 42, some (.obj [("songId", .str "s1")])⟩ := by
  apply c4_roundtrip_amended
  intro p hp
  injection hp with h2
  rw [← h2]
  rfl

/-! ## Dispatch of unknown and unhandled message types -/

/-- The empty catalog. -/
def emptyStorage : LibraryStorage := ⟨[], [], [], []⟩

/-- C3 (counterexample): a frame whose type string `"BOGUS_TYPE"` is not
in the vocabulary is not silently ignored — decoding fails and the
handler answers with an `INVALID_MESSAGE` error envelope. -/
theorem c3_unknown_type_counterexample :
    MessageType.ofRawValue "BOGUS_TYPE" = none
    ∧ handleReceivedData (some emptyStorage) true
        (.obj [("type", .str "BOGUS_TYPE"), ("timestamp", .num 0)])
      = [.errorMsg "INVALID_MESSAGE" "Could not decode message"] :=
  ⟨rfl, rfl⟩

/-- C3 (amended): a frame whose type string is outside the vocabulary
fails decode and is answered with exactly one `INVALID_MESSAGE` error
envelope; frames carrying a *known* type that the dispatcher does not
handle (inbound telemetry, response or error types) hit the logged
`default:` branch and produce no envelope at all (given bound storage). -/
theorem c3_unknown_dispatch_amended :
    (∀ (st : LibraryStorage) (hasPlayer : Bool) (m : BluetoothMessage),
        (m.type = .songStarted ∨ m.type = .songStopped ∨ m.type = .playbackProgress
          ∨ m.type = .playlistsResponse ∨ m.type = .artistsResponse
          ∨ m.type = .albumsResponse ∨ m.type = .songsResponse ∨ m.type = .error) →
        handleQuery (some st) hasPlayer m = [])
    ∧ ∀ (storage : Option LibraryStorage) (hasPlayer : Bool) (j : Json),
        BluetoothMessage.fromData j = none →
        handleReceivedData storage hasPlayer j
          = [.errorMsg "INVALID_MESSAGE" "Could not decode message"] := by
  constructor
  · intro st hasPlayer m hm
    rcases hm with h | h | h | h | h | h | h | h <;> simp [handleQuery, h]
  · intro storage hasPlayer j hj
    simp [handleReceivedData, hj]

/-- Witness for `c3_unknown_dispatch_amended`: an inbound `ERROR`-typed
frame produces no envelope, and an undecodable frame produces exactly
the `INVALID_MESSAGE` envelope. -/
theorem c3_unknown_dispatch_witness :
    handleQuery (some emptyStorage) true ⟨.error, 0, none⟩ = []
    ∧ handleReceivedData (some emptyStorage) true (.str "junk")
      = [.errorMsg "INVALID_MESSAGE" "Could not decode message"] :=
  ⟨c3_unknown_dispatch_amended.1 emptyStorage true ⟨.error, 0, none⟩ (by simp),
    c3_unknown_dispatch_amended.2 (some emptyStorage) true (.str "junk") rfl⟩

/-! ## The playSong command -/

/-- The start-index rule applied to the resolved queue: the position of
the requested song id when present, else the caller-supplied index
capped at `count - 1`, else 0. -/
def startIndexSpec (queue : List Song) (payload : PlaySongPayload) : Int :=
  match queue.findIdx? (fun s => s.id == payload.songId) with
  | some index => (index : Int)
  | none =>
    match payload.songIndex with
    | some songIndex => min songIndex ((queue.length : Int) - 1)
    | none => 0

/-- A one-song catalog for the `playSong` counterexample. -/
def c2Storage : LibraryStorage := ⟨[], [], [], [⟨"s1", "T1", none, none, 1, none⟩]⟩

/-- A scope-less `playSong` request for an id absent from the catalog,
with a fallback index supplied. -/
def c2Payload : PlaySongPayload := ⟨"zz", none, none, some 0⟩

/-- C2 (counterexample): with no scope, an unknown song id and a
caller-supplied fallback index 0 against a nonempty catalog, the claim
predicts the full catalog becomes the candidate list and index 0 is
played; the code instead finds no candidates (its scope-less fallback is
the singleton song found by id, not the full catalog) and emits
`SONG_NOT_FOUND`. -/
theorem c2_play_song_counterexample :
    handlePlaySong true c2Storage c2Payload
      = .errorResult "SONG_NOT_FOUND" "Could not find song or context"
    ∧ c2Storage.getAllSongs ≠ [] := by
  constructor
  · rfl
  · decide

/-- The fallback behavior of `handlePlaySong` once the scope phase
produced no candidates: the candidate list becomes the *singleton*
catalog song with the requested id (never the full catalog), played at
index 0; when no such song exists the handler returns the
`SONG_NOT_FOUND` error and takes no playback action. -/
def playSongFallback (st : LibraryStorage) (p : PlaySongPayload) : Prop :=
  (∀ s : Song, st.getAllSongs.find? (fun q => q.id == p.songId) = some s →
    handlePlaySong true st p = .play s.title 0 [s])
  ∧ (st.getAllSongs.find? (fun q => q.id == p.songId) = none →
    handlePlaySong true st p
      = .errorResult "SONG_NOT_FOUND" "Could not find song or context")

/-- Whenever the scope phase of `handlePlaySong` leaves the queue empty,
the handler falls back to the singleton catalog song found by id. -/
theorem handlePlaySong_fallback_of_empty (st : LibraryStorage)
    (p : PlaySongPayload) (h : (playSongScopedQueue st p).1 = []) :
    playSongFallback st p := by
  constructor
  · intro s hfind
    have hs0 := List.find?_some hfind
    have hs : (s.id == p.songId) = true := hs0
    simp [handlePlaySong, h, hfind, List.findIdx?_cons, hs]
  · intro hfind
    simp [handlePlaySong, h, hfind]

/-- C2 (amended): `playSong` plays the scoped queue when the scope
(kind+id) is present and resolves to a nonempty song list, locating the
target by id with the caller-supplied index, capped at `count - 1`, as
fallback. In *every* other case — no scope, missing scope id, unknown
scope kind, unresolved scope id, or a scope resolving to an empty list —
the candidate list falls back to the singleton catalog song with the
requested id, not the full catalog; if that also yields no candidates
the handler emits `SONG_NOT_FOUND` and invokes no playback action. -/
theorem c2_play_song_amended (st : LibraryStorage) (p : PlaySongPayload) :
    (∀ pl : Playlist, p.context = some "playlist" → p.contextId = some pl.id →
      (st.getAllPlaylists true).find? (fun q => q.id == pl.id) = some pl →
      pl.playables ≠ [] →
      handlePlaySong true st p
        = .play pl.name (startIndexSpec pl.playables p) pl.playables)
    ∧ (∀ al : Album, p.context = some "album" → p.contextId = some al.id →
      st.getAllAlbums.find? (fun q => q.id == al.id) = some al →
      al.songs ≠ [] →
      handlePlaySong true st p = .play al.name (startIndexSpec al.songs p) al.songs)
    ∧ (∀ ar : Artist, p.context = some "artist" → p.contextId = some ar.id →
      st.getAllArtists.find? (fun q => q.id == ar.id) = some ar →
      ar.songs ≠ [] →
      handlePlaySong true st p = .play ar.name (startIndexSpec ar.songs p) ar.songs)
    ∧ ((p.context = none
        ∨ p.contextId = none
        ∨ (∃ k, p.context = some k
            ∧ k ≠ "playlist" ∧ k ≠ "album" ∧ k ≠ "artist")
        ∨ (∃ cid, p.context = some "playlist" ∧ p.contextId = some cid
            ∧ ∀ pl : Playlist,
                (st.getAllPlaylists true).find? (fun q => q.id == cid) = some pl →
                pl.playables = [])
        ∨ (∃ cid, p.context = some "album" ∧ p.contextId = some cid
            ∧ ∀ al : Album,
                st.getAllAlbums.find? (fun q => q.id == cid) = some al →
                al.songs = [])
        ∨ (∃ cid, p.context = some "artist" ∧ p.contextId = some cid
            ∧ ∀ ar : Artist,
                st.getAllArtists.find? (fun q => q.id == cid) = some ar →
                ar.songs = [])) →
      playSongFallback st p) := by
  refine ⟨?_, ?_, ?_, ?_⟩
  · intro pl h1 h2 hfind hne
    have hne' : pl.playables.isEmpty = false := by
      cases hx : pl.playables
      · exact absurd hx hne
      · rfl
    simp [handlePlaySong, playSongScopedQueue, h1, h2, hfind, hne', startIndexSpec]
  · intro al h1 h2 hfind hne
    have hne' : al.songs.isEmpty = false := by
      cases hx : al.songs
      · exact absurd hx hne
      · rfl
    simp [handlePlaySong, playSongScopedQueue, h1, h2, hfind, hne', startIndexSpec]
  · intro ar h1 h2 hfind hne
    have hne' : ar.songs.isEmpty = false := by
      cases hx : ar.songs
      · exact absurd hx hne
      · rfl
    simp [handlePlaySong, playSongScopedQueue, h1, h2, hfind, hne', startIndexSpec]
  · intro hfb
    apply handlePlaySong_fallback_of_empty
    rcases hfb with h | h | ⟨k, hk, hk1, hk2, hk3⟩ | ⟨cid, hc, hcid, hall⟩
      | ⟨cid, hc, hcid, hall⟩ | ⟨cid, hc, hcid, hall⟩
    · simp [playSongScopedQueue, h]
    · cases hc : p.context <;> simp [playSongScopedQueue, hc, h]
    · cases hcid : p.contextId with
      | none => simp [playSongScopedQueue, hk, hcid]
      | some cid => simp [playSongScopedQueue, hk, hcid, hk1, hk2, hk3]
    · cases hfs : (st.getAllPlaylists true).find? (fun q => q.id == cid) with
      | none => simp [playSongScopedQueue, hc, hcid, hfs]
      | some pl => simp [playSongScopedQueue, hc, hcid, hfs, hall pl hfs]
    · cases hfs : st.getAllAlbums.find? (fun q => q.id == cid) with
      | none => simp [playSongScopedQueue, hc, hcid, hfs]
      | some al => simp [playSongScopedQueue, hc, hcid, hfs, hall al hfs]
    · cases hfs : st.getAllArtists.find? (fun q => q.id == cid) with
      | none => simp [playSongScopedQueue, hc, hcid, hfs]
      | some ar => simp [playSongScopedQueue, hc, hcid, hfs, hall ar hfs]

/-- The three songs of album `al-3` (spec section 8 example). -/
def c2AlbumSongsW : List Song :=
  [⟨"s7", "T7", none, none, 7, none⟩, ⟨"s8", "T8", none, none, 8, none⟩,
   ⟨"s9", "T9", none, none, 9, none⟩]

/-- Album `al-3`, whose third song is `s9`. -/
def c2AlbumW : Album := ⟨"al-3", "Album 3", none, none, c2AlbumSongsW⟩

/-- A catalog holding album `al-3`. -/
def c2StorageW : LibraryStorage := ⟨[], [], [c2AlbumW], c2AlbumSongsW⟩

/-- Command `playSong{songId: "s9", context: "album", contextId: "al-3"}`. -/
def c2PayloadW : PlaySongPayload := ⟨"s9", some "album", some "al-3", none⟩

/-- Witness for `c2_play_song_amended`: playing `s9` scoped to album
`al-3` starts the album queue at index 2, and a request with the unknown
scope kind `"bogus"` falls back to the singleton catalog song `s7`. -/
theorem c2_play_song_witness :
    handlePlaySong true c2StorageW c2PayloadW = .play "Album 3" 2 c2AlbumSongsW
    ∧ handlePlaySong true c2StorageW ⟨"s7", some "bogus", some "al-3", none⟩
      = .play "T7" 0 [⟨"s7", "T7", none, none, 7, none⟩] := by
  have h := (c2_play_song_amended c2StorageW c2PayloadW).2.1 c2AlbumW rfl rfl
    (by decide) (by decide)
  have hfb := (c2_play_song_amended c2StorageW
      ⟨"s7", some "bogus", some "al-3", none⟩).2.2.2
    (Or.inr (Or.inr (Or.inl ⟨"bogus", rfl, by decide, by decide, by decide⟩)))
  obtain ⟨hfb1, _⟩ := hfb
  constructor
  · rw [h]
    decide
  · exact hfb1 ⟨"s7", "T7", none, none, 7, none⟩ (by decide)

/-! ## Telemetry transitions -/

/-- Song A of the telemetry scenario. -/
def songA : Song := ⟨"A", "Song A", none, none, 100, none⟩

/-- Song B of the telemetry scenario. -/
def songB : Song := ⟨"B", "Song B", none, none, 120, none⟩

/-- The observed transitions: start A, pause, resume, start B. -/
def c5Snapshots : List PlayerSnapshot :=
  [⟨true, some songA, ""⟩, ⟨false, some songA, ""⟩,
   ⟨true, some songA, ""⟩, ⟨true, some songB, ""⟩]

/-- C5: over the transition sequence [start A, pause, resume, start B]
the observer emits exactly `songStarted(A)`, `songStopped(A)`,
`songStarted(A)`, `songStopped(A)`, `songStarted(B)` in that order, and
after the pause transition the progress timer is stopped, so no
`playbackProgress` frame is emitted during the paused interval. -/
theorem c5_telemetry_sequence :
    (runObserver ⟨false, none⟩ c5Snapshots).2
      = [.songStarted "A", .songStopped "A", .songStarted "A",
         .songStopped "A", .songStarted "B"]
    ∧ progressTimerAfter false ((runObserver ⟨false, none⟩ (c5Snapshots.take 2)).2)
      = false := by
  decide

/-! ## Reconnection policy -/

/-- C6: on an unexpected link loss (disconnect with a transport error)
while `autoReconnect` holds, the manager schedules exactly one
reconnection, to the previously persisted peer, after the fixed
2-second backoff; after a user-initiated disconnect (which clears the
persisted session and resets `autoReconnect` before tearing down the
transport) any subsequent disconnect event schedules zero reconnection
attempts. -/
theorem c6_reconnect_policy (st : ManagerState) (id : String)
    (hdisc : st.discovered.contains id = true)
    (hauto : st.autoReconnect = true)
    (hpersist : st.persistedId = some id) :
    (managerStep st (.didDisconnect id true true)).2 = [.reconnect 2 id]
    ∧ st.persistedId = some id
    ∧ ∀ id0, st.connected = some id0 →
        ((managerStep st .userDisconnect).1.autoReconnect = false
          ∧ ∀ (id2 : String) (hadError poweredOn : Bool),
              (managerStep (managerStep st .userDisconnect).1
                  (.didDisconnect id2 hadError poweredOn)).2 = []) := by
  refine ⟨?_, hpersist, ?_⟩
  · simp only [managerStep]
    rw [hdisc]
    simp [hauto]
  · intro id0 hconn
    refine ⟨by simp [managerStep, hconn], ?_⟩
    intro id2 hadError poweredOn
    simp only [managerStep, hconn]
    split
    · simp
    · rfl

/-- A state persisted and connected to device `dev1`. -/
def c6StateW : ManagerState := ⟨some "dev1", some "Device 1", true, some "dev1", ["dev1"]⟩

/-- Witness for `c6_reconnect_policy` at a concrete connected state. -/
theorem c6_reconnect_policy_witness :
    (managerStep c6StateW (.didDisconnect "dev1" true true)).2 = [.reconnect 2 "dev1"]
    ∧ (managerStep c6StateW .userDisconnect).1.autoReconnect = false := by
  have h := c6_reconnect_policy c6StateW "dev1" (by decide) rfl rfl
  exact ⟨h.1, (h.2.2 "dev1" rfl).1⟩

/-! ## Oversize guard -/

/-- C7: an outbound envelope whose serialized size exceeds the 512-byte
cap is caught before transmission: the frame itself is never written,
the `MESSAGE_TOO_LARGE` error envelope is sent in its place (it fits the
cap), and in general every data frame that reaches the transport is the
full, untruncated serialization of a message and is within the cap. -/
theorem c7_oversize_guard (n errorSize : Nat) (hn : n > maxMessageSize) :
    (∀ w ∈ sendMessageWrites true (some n) errorSize, w ≠ .frame n)
    ∧ (errorSize ≤ maxMessageSize →
        sendMessageWrites true (some n) errorSize
          = [.errorFrame "MESSAGE_TOO_LARGE" errorSize])
    ∧ ∀ (hasTx : Bool) (dataSize : Option Nat) (es : Nat),
        ∀ w ∈ sendMessageWrites hasTx dataSize es, ∀ k, w = .frame k →
          dataSize = some k ∧ k ≤ maxMessageSize := by
  refine ⟨?_, ?_, ?_⟩
  · intro w hw
    simp only [sendMessageWrites, if_pos hn] at hw
    split at hw
    · simp at hw
    · simp at hw
      subst hw
      simp
  · intro he
    simp [sendMessageWrites, hn, Nat.not_lt.2 he]
  · intro hasTx dataSize es w hw k hk
    subst hk
    match hasTx, dataSize with
    | false, _ => simp [sendMessageWrites] at hw
    | true, none => simp [sendMessageWrites] at hw
    | true, some m =>
      simp only [sendMessageWrites] at hw
      by_cases hm : m > maxMessageSize
      · rw [if_pos hm] at hw
        split at hw
        · simp at hw
        · simp at hw
      · rw [if_neg hm] at hw
        simp at hw
        obtain ⟨rfl⟩ := hw
        exact ⟨rfl, Nat.not_lt.1 hm⟩

/-- Witness for `c7_oversize_guard`: a 600-byte frame is replaced by the
error envelope and never written. -/
theorem c7_oversize_guard_witness :
    sendMessageWrites true (some 600) 100 = [.errorFrame "MESSAGE_TOO_LARGE" 100]
    ∧ TxWrite.frame 600 ∉ sendMessageWrites true (some 600) 100 := by
  have h := c7_oversize_guard 600 100 (by decide)
  refine ⟨h.2.1 (by decide), ?_⟩
  intro hmem
  exact h.1 _ hmem rfl

/-! ## Scoped queries with unknown ids -/

/-- C8: a scoped-songs query whose scope id has no match in the catalog
emits exactly one error envelope, with the scope-appropriate not-found
code, and zero page envelopes. -/
theorem c8_scoped_not_found (st : LibraryStorage) (pid aid alid : String)
    (hp : (st.getAllPlaylists true).find? (fun q => q.id == pid) = none)
    (ha : st.getAllArtists.find? (fun q => q.id == aid) = none)
    (hal : st.getAllAlbums.find? (fun q => q.id == alid) = none) :
    handleQueryPlaylistSongs st pid
      = [.errorMsg "PLAYLIST_NOT_FOUND" ("Playlist with ID " ++ pid ++ " not found")]
    ∧ handleQueryArtistSongs st aid
      = [.errorMsg "ARTIST_NOT_FOUND" ("Artist with ID " ++ aid ++ " not found")]
    ∧ handleQueryAlbumSongs st alid
      = [.errorMsg "ALBUM_NOT_FOUND" ("Album with ID " ++ alid ++ " not found")] := by
  refine ⟨?_, ?_, ?_⟩
  · simp [handleQueryPlaylistSongs, hp]
  · simp [handleQueryArtistSongs, ha]
  · simp [handleQueryAlbumSongs, hal]

/-- Witness for `c8_scoped_not_found` against the empty catalog. -/
theorem c8_scoped_not_found_witness :
    handleQueryPlaylistSongs emptyStorage "x"
      = [.errorMsg "PLAYLIST_NOT_FOUND" ("Playlist with ID " ++ "x" ++ " not found")]
    ∧ handleQueryArtistSongs emptyStorage "y"
      = [.errorMsg "ARTIST_NOT_FOUND" ("Artist with ID " ++ "y" ++ " not found")]
    ∧ handleQueryAlbumSongs emptyStorage "z"
      = [.errorMsg "ALBUM_NOT_FOUND" ("Album with ID " ++ "z" ++ " not found")] :=
  c8_scoped_not_found emptyStorage "x" "y" "z" rfl rfl rfl

/-! ## Scope context on multi-page responses -/

/-- Three songs, paginating at 2 per page into two song pages. -/
def c9Songs : List SongInfo :=
  [⟨"s1", "T1", none, none, 1, none⟩, ⟨"s2", "T2", none, none, 2, none⟩,
   ⟨"s3", "T3", none, none, 3, none⟩]

/-- C9 (counterexample): in a two-page scoped songs response, the second
page also carries the scope kind and id — the scope is not restricted to
the first page. -/
theorem c9_scope_counterexample :
    (sendPaginatedSongs c9Songs (some "album") (some "al-1")).length = 2
    ∧ ((sendPaginatedSongs c9Songs (some "album") (some "al-1")).drop 1).map
        (fun pg => (pg.context, pg.contextId))
      = [(some "album", some "al-1")] := by
  decide

/-- C9 (amended): *every* page of a scoped songs response (not only the
first) carries the scope kind and scope id of the query. -/
theorem c9_scope_amended (items : List SongInfo) (ctx cid : Option String) :
    ∀ pg ∈ sendPaginatedSongs items ctx cid, pg.context = ctx ∧ pg.contextId = cid := by
  intro pg hpg
  simp only [sendPaginatedSongs, List.mem_map] at hpg
  obtain ⟨s, _, rfl⟩ := hpg
  exact ⟨rfl, rfl⟩

/-- Witness for `c9_scope_amended`: the second page of the concrete
two-page response carries the scope. -/
theorem c9_scope_witness :
    (SongsResponsePayload.mk [⟨"s3", "T3", none, none, 3, none⟩]
        (some "album") (some "al-1") 2 2).context = some "album"
    ∧ (SongsResponsePayload.mk [⟨"s3", "T3", none, none, 3, none⟩]
        (some "album") (some "al-1") 2 2).contextId = some "al-1" :=
  c9_scope_amended c9Songs (some "album") (some "al-1")
    ⟨[⟨"s3", "T3", none, none, 3, none⟩], some "album", some "al-1", 2, 2⟩
    (by decide)

/-! ## Listing vs scoped-lookup playlist sets -/

/-- A system playlist holding one song. -/
def c10SystemPlaylist : Playlist :=
  ⟨"sys1", "Favorites", true, [⟨"s1", "T1", none, none, 1, none⟩]⟩

/-- A catalog whose only playlist is a system playlist. -/
def c10Storage : LibraryStorage := ⟨[c10SystemPlaylist], [], [], []⟩

set_option maxRecDepth 10000 in
/-- C10: the playlists listing excludes system playlists while the
songs-of-playlist lookup includes them: for this catalog the playlists
response contains no playlist at all (one empty page, `sys1` named
nowhere), yet the songs-of-playlist query for `sys1` answers with a song
page rather than `PLAYLIST_NOT_FOUND`. -/
theorem c10_playlist_scope_sets :
    handleQueryPlaylists c10Storage = [.playlistsPage ⟨[], 1, 1⟩]
    ∧ "sys1" ∉ ((handleQueryPlaylists c10Storage).map (fun pg =>
        match pg with
        | .playlistsPage payload => payload.playlists.map PlaylistInfo.id
        | _ => [])).flatten
    ∧ handleQueryPlaylistSongs c10Storage "sys1"
      = [.songsPage ⟨[⟨"s1", "T1", none, none, 1, none⟩],
          some "playlist", some "sys1", 1, 1⟩] := by
  refine ⟨?_, ?_, ?_⟩ <;> decide
